import Mathlib

/-!
Verification development for the engraver PoC2 plotter (src/plotter.rs).

The orchestrator `Plotter::run` and the memory sizer `calculate_mem_to_use`
are embedded shallowly: machine integers (`u64`) become `Nat`; the external
queries the orchestrator performs (system memory, free disk space, sector
size, path and file existence, resume-sidecar contents, GPU memory need)
become fields of an environment record `RunEnv`; the `mem: String` field of
`PlotterTask` is modelled by the result of its `humanize_rs` parse
(`Option Nat`, `none` for an unparseable string).  The one `u64` subtraction
that can underflow, `memory.free - gpu_mem_needed` (plotter.rs line 417),
is modelled explicitly: underflow (a panic in a debug build, wraparound in
release) is the distinguished outcome `SizerResult.underflow`.  The call to
`process::exit(0)` on insufficient host memory (line 397) is the outcome
`SizerResult.exited 0`, recording the exit code the source passes.
-/

namespace Engraver

/-- `SCOOP_SIZE` constant of plotter.rs. -/
def SCOOP_SIZE : Nat := 64

/-- `NUM_SCOOPS` constant of plotter.rs. -/
def NUM_SCOOPS : Nat := 4096

/-- `NONCE_SIZE = SCOOP_SIZE * NUM_SCOOPS` (262144 bytes). -/
def NONCE_SIZE : Nat := SCOOP_SIZE * NUM_SCOOPS

/-- The `PlotterTask` structure of plotter.rs.  `mem` holds the parse result
of the memory-limit string (`none` when `task.mem.parse::<Bytes>()` fails);
`gpus` holds the presence of the `Option<Vec<String>>` GPU list;
`output_path` is represented by the `RunEnv` queries made through it. -/
structure PlotterTask where
  numeric_id : Nat
  start_nonce : Nat
  nonces : Nat
  mem : Option Nat
  cpu_threads : Nat
  gpus : Bool
  direct_io : Bool
  async_io : Bool
  quiet : Bool
  benchmark : Bool
  zcb : Bool
deriving Repr, DecidableEq

/-- Results of `calculate_mem_to_use`: `parseErr` is the `Err("invalid
unit")` return, `exited c` the `process::exit(c)` call, `underflow` the
`u64` underflow of `memory.free - gpu_mem_needed`, `ok mem` the `Ok(mem)`
return. -/
inductive SizerResult where
  | parseErr : SizerResult
  | exited (code : Nat) : SizerResult
  | underflow : SizerResult
  | ok (mem : Nat) : SizerResult
deriving Repr, DecidableEq

/-- The sizer statements of plotter.rs lines 400-407: subtract the gpu
reservation from a positive budget, replace a zero budget by `plotsize`,
clamp to `plotsize + gpu_mem_needed`. -/
def sizer_head (m plotsize gpu_mem_needed : Nat) (gpu : Bool) : Nat :=
  let mem := if gpu = true ∧ 0 < m then m - gpu_mem_needed else m
  let mem := if mem = 0 then plotsize else mem
  min mem (plotsize + gpu_mem_needed)

/-- The sizer statements of plotter.rs lines 417-425: clamp to
`(free_memory - gpu_mem_needed) * 1000 / 1024`, round down to a multiple
of `num_buffer * NONCE_SIZE * nonces_per_sector`, lift to at least that
unit.  (`two_buffers` is `task.async_io`.) -/
def sizer_tail (mem free_memory gpu_mem_needed nonces_per_sector : Nat)
    (two_buffers : Bool) : Nat :=
  let mem := min mem ((free_memory - gpu_mem_needed) * 1000 / 1024)
  let num_buffer : Nat := if two_buffers then 2 else 1
  let mem := mem / (num_buffer * NONCE_SIZE * nonces_per_sector)
               * (num_buffer * NONCE_SIZE * nonces_per_sector)
  max mem (num_buffer * NONCE_SIZE * nonces_per_sector)

/-- `calculate_mem_to_use` of plotter.rs (lines 371-427), step for step:
parse the memory string; fatal exit when gpu plotting lacks host memory;
`sizer_head` (subtract, zero default, clamp to
`plotsize + gpu_mem_needed`); redefine `nonces_per_sector` to at least 16
for gpu; then `sizer_tail` (free-memory clamp, rounding, minimum), whose
`u64` subtraction `free_memory - gpu_mem_needed` is guarded by the
explicit `underflow` outcome. -/
def calculate_mem_to_use (task : PlotterTask) (free_memory : Nat)
    (nonces_per_sector : Nat) (gpu : Bool) (gpu_mem_needed : Nat) :
    SizerResult :=
  let plotsize := task.nonces * NONCE_SIZE
  match task.mem with
  | none => SizerResult.parseErr
  | some m =>
    if gpu = true ∧ 0 < m ∧ m < gpu_mem_needed + nonces_per_sector * NONCE_SIZE then
      SizerResult.exited 0
    else
      let mem := sizer_head m plotsize gpu_mem_needed gpu
      let nonces_per_sector :=
        if gpu then max 16 nonces_per_sector else nonces_per_sector
      if free_memory < gpu_mem_needed then SizerResult.underflow
      else
        SizerResult.ok
          (sizer_tail mem free_memory gpu_mem_needed nonces_per_sector
            task.async_io)

/-- The sizer rules of spec section 4.5 (steps 2-7), written from the
spec's words, for comparison with `calculate_mem_to_use`: subtract the gpu
reservation from a positive budget, replace a zero budget by
`N * NONCE_SIZE`, clamp to `N * NONCE_SIZE + gpu_mem_needed`, clamp to
`(free_memory - gpu_mem_needed) * 1000 / 1024`, round down to a multiple
of `num_buffer * NONCE_SIZE * lane_nonces`, lift to at least one unit. -/
def sizer_spec (mem_budget free_memory N nonces_per_sector : Nat)
    (gpu_enabled async_two_buffers : Bool) (gpu_mem_needed : Nat) : Nat :=
  let mem := if gpu_enabled = true ∧ 0 < mem_budget
             then mem_budget - gpu_mem_needed else mem_budget
  let mem := if mem = 0 then N * NONCE_SIZE else mem
  let mem := min mem (N * NONCE_SIZE + gpu_mem_needed)
  let lane_nonces := if gpu_enabled then max 16 nonces_per_sector else nonces_per_sector
  let mem := min mem ((free_memory - gpu_mem_needed) * 1000 / 1024)
  let num_buffer : Nat := if async_two_buffers then 2 else 1
  let unit := num_buffer * NONCE_SIZE * lane_nonces
  let mem := mem / unit * unit
  max mem unit

/-- The external queries `Plotter::run` performs, one field per call:
`sys.memory().free`, `utils::free_disk_space(&task.output_path)`,
`utils::get_sector_size(&task.output_path)`, `file.parent().exists()`,
`file.exists()`, `writer::read_resume_info(&file)` (`none` for `Err`),
and the `ocl::gpu_get_info` answer for the task's GPU list. -/
structure RunEnv where
  free_memory : Nat
  free_disk_space : Nat
  sector_size : Nat
  path_exists : Bool
  file_exists : Bool
  resume_info : Option Nat
  gpu_mem_queried : Nat
deriving Repr, DecidableEq

/-- The `zcb` adjustment of plotter.rs lines 118-123: the queried GPU
memory need is kept in full when `task.zcb` is set and halved otherwise. -/
def gpu_mem_reserved (zcb : Bool) (queried : Nat) : Nat :=
  if zcb then queried else queried / 2

/-- `gpu_mem_needed` as `Plotter::run` computes it (lines 112-123): the
`gpu_get_info` answer when a GPU list is present, `0` otherwise, then the
`zcb` adjustment. -/
def gpu_mem_needed_of (task : PlotterTask) (env : RunEnv) : Nat :=
  gpu_mem_reserved task.zcb (if task.gpus then env.gpu_mem_queried else 0)

/-- Lines 127-129: a nonce count of `0` means "fill the free disk". -/
def fill_nonces (task : PlotterTask) (free_disk : Nat) : Nat :=
  if task.nonces = 0 then free_disk / NONCE_SIZE else task.nonces

/-- Lines 136-147: with direct i/o the nonce count is aligned down to
`nonces_per_sector = sector_size / SCOOP_SIZE` when not already a
multiple; the second component is `rounded_nonces_to_sector_size`. -/
def align_nonces (direct_flag : Bool) (sector_size nonces : Nat) :
    Nat × Bool :=
  if direct_flag then
    let nonces_per_sector := sector_size / SCOOP_SIZE
    if 0 < nonces % nonces_per_sector then
      (nonces / nonces_per_sector * nonces_per_sector, true)
    else (nonces, false)
  else (nonces, false)

/-- The `nonces_per_sector` local of `Plotter::run`: `1` unless direct i/o
is on, in which case `sector_size / SCOOP_SIZE`. -/
def nonces_per_sector_of (direct_flag : Bool) (sector_size : Nat) : Nat :=
  if direct_flag then sector_size / SCOOP_SIZE else 1

/-- The nonce count after the fill-disk default and sector alignment. -/
def effective_nonces (task : PlotterTask) (env : RunEnv) : Nat :=
  (align_nonces task.direct_io env.sector_size
    (fill_nonces task env.free_disk_space)).1

/-- The `rounded_nonces_to_sector_size` flag of `Plotter::run`. -/
def rounded_to_sector (task : PlotterTask) (env : RunEnv) : Bool :=
  (align_nonces task.direct_io env.sector_size
    (fill_nonces task env.free_disk_space)).2

/-- The task as it stands when `calculate_mem_to_use(&task, ...)` is
called: `task.nonces` has been mutated in place to the effective count. -/
def effective_task (task : PlotterTask) (env : RunEnv) : PlotterTask :=
  { task with nonces := effective_nonces task env }

/-- Which of the two on-disk side effects of the setup phase happened:
`utils::preallocate` (line 237) and `writer::write_resume_info`
(line 238). -/
structure SetupEffects where
  preallocated : Bool
  sidecar_written : Bool
deriving Repr, DecidableEq

/-- No on-disk side effect. -/
def noEffects : SetupEffects := ⟨false, false⟩

/-- How the setup phase of `Plotter::run` ends.  `proceed` means both
worker threads are spawned, carrying the effective nonce count, the
rounding flag, the sizer's memory amount and the resume offset; every
other constructor is a termination before any thread spawns. -/
inductive RunOutcome where
  | pathMissing : RunOutcome
  | insufficientDisk : RunOutcome
  | memParseError : RunOutcome
  | exited (code : Nat) : RunOutcome
  | underflowPanic : RunOutcome
  | alreadyCompleted : RunOutcome
  | proceed (nonces : Nat) (rounded : Bool) (mem : Nat) (progress : Nat) :
      RunOutcome
deriving Repr, DecidableEq

/-- The setup phase of `Plotter::run` (plotter.rs lines 81-344), in source
order: gpu reservation, fill-disk default, sector alignment, parent-path
check, free-disk check (skipped when the file exists or in benchmark
mode), the sizer, then resume handling — an existing file whose sidecar
cannot be read ends the run as `alreadyCompleted`; a missing file is
preallocated and given a fresh sidecar unless benchmark mode is on. -/
def run (task : PlotterTask) (env : RunEnv) : RunOutcome × SetupEffects :=
  let gpu_mem_needed := gpu_mem_needed_of task env
  let gpu := task.gpus
  let plotsize := effective_nonces task env * NONCE_SIZE
  if env.path_exists = false then (RunOutcome.pathMissing, noEffects)
  else if env.free_disk_space < plotsize ∧ env.file_exists = false ∧
      task.benchmark = false then
    (RunOutcome.insufficientDisk, noEffects)
  else
    match calculate_mem_to_use (effective_task task env) env.free_memory
        (nonces_per_sector_of task.direct_io env.sector_size) gpu
        gpu_mem_needed with
    | SizerResult.parseErr => (RunOutcome.memParseError, noEffects)
    | SizerResult.exited c => (RunOutcome.exited c, noEffects)
    | SizerResult.underflow => (RunOutcome.underflowPanic, noEffects)
    | SizerResult.ok mem =>
      if env.file_exists then
        match env.resume_info with
        | some progress =>
          (RunOutcome.proceed (effective_nonces task env)
            (rounded_to_sector task env) mem progress, noEffects)
        | none => (RunOutcome.alreadyCompleted, noEffects)
      else
        (RunOutcome.proceed (effective_nonces task env)
          (rounded_to_sector task env) mem 0,
         if task.benchmark then noEffects else ⟨true, true⟩)

/-- A CPU-only task asking for 10000 nonces with a 1 GiB budget. -/
def taskW : PlotterTask :=
  { numeric_id := 7, start_nonce := 0, nonces := 10000, mem := some (2^30),
    cpu_threads := 4, gpus := false, direct_io := false, async_io := false,
    quiet := true, benchmark := false, zcb := false }

/-- A GPU task whose 1-byte memory budget is below the GPU reservation. -/
def task2 : PlotterTask :=
  { numeric_id := 3, start_nonce := 0, nonces := 1000, mem := some 1,
    cpu_threads := 1, gpus := true, direct_io := false, async_io := false,
    quiet := true, benchmark := false, zcb := true }

/-- An environment with a 2 GiB GPU memory need and ample disk. -/
def env2 : RunEnv :=
  { free_memory := 2^33, free_disk_space := 2^40, sector_size := 4096,
    path_exists := true, file_exists := false, resume_info := none,
    gpu_mem_queried := 2^31 }

/-- A direct-i/o task asking for 30 nonces, fewer than one 4096-byte
sector holds. -/
def task6 : PlotterTask :=
  { numeric_id := 1, start_nonce := 0, nonces := 30, mem := some (2^30),
    cpu_threads := 1, gpus := false, direct_io := true, async_io := false,
    quiet := true, benchmark := false, zcb := false }

/-- An environment with 4096-byte sectors, a fresh output file and ample
disk and memory. -/
def env6 : RunEnv :=
  { free_memory := 2^31, free_disk_space := 2^40, sector_size := 4096,
    path_exists := true, file_exists := false, resume_info := none,
    gpu_mem_queried := 0 }

/-- A double-buffered CPU task asking for 256 nonces. -/
def task9 : PlotterTask :=
  { numeric_id := 2, start_nonce := 0, nonces := 256, mem := some (2^31),
    cpu_threads := 2, gpus := false, direct_io := false, async_io := true,
    quiet := true, benchmark := false, zcb := false }

/-- An environment in which the output file exists and its resume sidecar
reads back 5 completed nonces. -/
def env9 : RunEnv :=
  { free_memory := 2^33, free_disk_space := 2^40, sector_size := 512,
    path_exists := true, file_exists := true, resume_info := some 5,
    gpu_mem_queried := 0 }

/-- A CPU task asking for 1000 nonces. -/
def taskD : PlotterTask :=
  { numeric_id := 4, start_nonce := 0, nonces := 1000, mem := some (2^30),
    cpu_threads := 1, gpus := false, direct_io := false, async_io := false,
    quiet := true, benchmark := false, zcb := false }

/-- An environment with only 1000 bytes of free disk and no output file. -/
def envD : RunEnv :=
  { free_memory := 2^31, free_disk_space := 1000, sector_size := 4096,
    path_exists := true, file_exists := false, resume_info := none,
    gpu_mem_queried := 0 }

/-- A benchmark-mode task. -/
def task8 : PlotterTask :=
  { numeric_id := 5, start_nonce := 0, nonces := 100, mem := some (2^30),
    cpu_threads := 1, gpus := false, direct_io := false, async_io := false,
    quiet := true, benchmark := true, zcb := false }

/-- An environment without an existing output file. -/
def env8 : RunEnv :=
  { free_memory := 2^31, free_disk_space := 2^40, sector_size := 4096,
    path_exists := true, file_exists := false, resume_info := none,
    gpu_mem_queried := 0 }

/-- A task with an unlimited (zero) memory budget. -/
def task10 : PlotterTask :=
  { numeric_id := 6, start_nonce := 0, nonces := 5, mem := some 0,
    cpu_threads := 1, gpus := true, direct_io := false, async_io := false,
    quiet := true, benchmark := false, zcb := true }

theorem effective_task_mem (task : PlotterTask) (env : RunEnv) :
    (effective_task task env).mem = task.mem := rfl

theorem effective_task_async (task : PlotterTask) (env : RunEnv) :
    (effective_task task env).async_io = task.async_io := rfl

theorem effective_task_nonces (task : PlotterTask) (env : RunEnv) :
    (effective_task task env).nonces = effective_nonces task env := rfl

/-- Rounding down to a multiple of `nb * w` and lifting to at least
`nb * w`, then dividing by the buffer count `nb`, yields a multiple of `w`
that is at least `w`. -/
theorem round_lift_per_buffer (x w nb : Nat) (hnb : 0 < nb) :
    w ∣ max (x / (nb * w) * (nb * w)) (nb * w) / nb ∧
    w ≤ max (x / (nb * w) * (nb * w)) (nb * w) / nb := by
  rcases Nat.eq_zero_or_pos w with hw | hw
  · subst hw
    simp
  · rcases Nat.eq_zero_or_pos (x / (nb * w)) with hq | hq
    · rw [hq]
      simp [Nat.mul_div_cancel_left _ hnb]
    · have hle : nb * w ≤ x / (nb * w) * (nb * w) :=
        Nat.le_mul_of_pos_left _ hq
      rw [max_eq_left hle]
      have hdiv : x / (nb * w) * (nb * w) / nb = x / (nb * w) * w := by
        rw [show x / (nb * w) * (nb * w) = nb * (x / (nb * w) * w) by ring]
        exact Nat.mul_div_cancel_left _ hnb
      rw [hdiv]
      exact ⟨dvd_mul_left w _, Nat.le_mul_of_pos_left _ hq⟩

/-- `round_lift_per_buffer` stated with the unit written
`nb * NONCE_SIZE * lane` exactly as the sizer computes it. -/
theorem round_lift_per_buffer_assoc (x lane nb : Nat) (hnb : 0 < nb) :
    NONCE_SIZE * lane ∣
      max (x / (nb * NONCE_SIZE * lane) * (nb * NONCE_SIZE * lane))
        (nb * NONCE_SIZE * lane) / nb ∧
    NONCE_SIZE * lane ≤
      max (x / (nb * NONCE_SIZE * lane) * (nb * NONCE_SIZE * lane))
        (nb * NONCE_SIZE * lane) / nb := by
  have ha : nb * NONCE_SIZE * lane = nb * (NONCE_SIZE * lane) :=
    Nat.mul_assoc nb NONCE_SIZE lane
  rw [ha]
  exact round_lift_per_buffer x (NONCE_SIZE * lane) nb hnb

/-- Inversion for the sizer: a returned memory amount is exactly
`sizer_tail` of `sizer_head`, and the fatal and underflow branches were
not taken. -/
theorem calculate_mem_to_use_ok_inv (task : PlotterTask)
    (free_memory nonces_per_sector : Nat) (gpu : Bool)
    (gpu_mem_needed mem : Nat)
    (hok : calculate_mem_to_use task free_memory nonces_per_sector gpu
        gpu_mem_needed = SizerResult.ok mem) :
    ∃ m, task.mem = some m ∧
      ¬(gpu = true ∧ 0 < m ∧
          m < gpu_mem_needed + nonces_per_sector * NONCE_SIZE) ∧
      ¬(free_memory < gpu_mem_needed) ∧
      mem = sizer_tail
        (sizer_head m (task.nonces * NONCE_SIZE) gpu_mem_needed gpu)
        free_memory gpu_mem_needed
        (if gpu then max 16 nonces_per_sector else nonces_per_sector)
        task.async_io := by
  cases hm : task.mem with
  | none => simp [calculate_mem_to_use, hm] at hok
  | some m =>
    by_cases h1 : gpu = true ∧ 0 < m ∧
        m < gpu_mem_needed + nonces_per_sector * NONCE_SIZE
    · simp [calculate_mem_to_use, hm, h1] at hok
    · by_cases h2 : free_memory < gpu_mem_needed
      · simp [calculate_mem_to_use, hm, h1, h2] at hok
      · simp only [calculate_mem_to_use, hm, if_neg h1, if_neg h2,
          SizerResult.ok.injEq] at hok
        exact ⟨m, rfl, h1, h2, hok.symm⟩

/-- C1: for every task with a parseable memory string, whenever
`calculate_mem_to_use` returns a memory amount, that amount equals the
composition of the spec's sizer rules in their stated order: subtract the
gpu reservation from a positive budget, replace a zero budget by
`N * NONCE_SIZE`, clamp to `N * NONCE_SIZE + gpu_mem_needed`, clamp to
`(free_memory - gpu_mem_needed) * 1000 / 1024`, round down to a multiple
of `num_buffer * NONCE_SIZE * lane_nonces`, and lift to at least that
unit. -/
theorem sizer_matches_spec (task : PlotterTask)
    (free_memory nonces_per_sector : Nat) (gpu : Bool)
    (gpu_mem_needed m mem : Nat) (hm : task.mem = some m)
    (hok : calculate_mem_to_use task free_memory nonces_per_sector gpu
        gpu_mem_needed = SizerResult.ok mem) :
    mem = sizer_spec m free_memory task.nonces nonces_per_sector gpu
        task.async_io gpu_mem_needed := by
  obtain ⟨m', hm', -, -, hval⟩ :=
    calculate_mem_to_use_ok_inv task free_memory nonces_per_sector gpu
      gpu_mem_needed mem hok
  rw [hm] at hm'
  obtain rfl : m = m' := by injection hm'
  rw [hval]
  rfl

/-- Closed witness for `sizer_matches_spec` at a concrete CPU-only task. -/
theorem sizer_matches_spec_witness :
    calculate_mem_to_use taskW (2^31) 1 false 0
      = SizerResult.ok 1073741824 ∧
    1073741824 = sizer_spec (2^30) (2^31) 10000 1 false false 0 :=
  ⟨by decide,
   sizer_matches_spec taskW (2^31) 1 false 0 (2^30) 1073741824 rfl
     (by decide)⟩

/-- C5: for every task for which `calculate_mem_to_use` succeeds, the
per-buffer size (the returned memory divided by `num_buffer`) is divisible
by `NONCE_SIZE * lane_nonces` and at least `NONCE_SIZE * lane_nonces`,
where `lane_nonces` is `max 16 nonces_per_sector` for gpu and
`nonces_per_sector` otherwise. -/
theorem sizer_alignment_invariant (task : PlotterTask)
    (free_memory nonces_per_sector : Nat) (gpu : Bool)
    (gpu_mem_needed mem : Nat)
    (hok : calculate_mem_to_use task free_memory nonces_per_sector gpu
        gpu_mem_needed = SizerResult.ok mem) :
    NONCE_SIZE * (if gpu then max 16 nonces_per_sector else nonces_per_sector)
        ∣ mem / (if task.async_io then 2 else 1) ∧
    NONCE_SIZE * (if gpu then max 16 nonces_per_sector else nonces_per_sector)
        ≤ mem / (if task.async_io then 2 else 1) := by
  obtain ⟨m, -, -, -, hval⟩ :=
    calculate_mem_to_use_ok_inv task free_memory nonces_per_sector gpu
      gpu_mem_needed mem hok
  rw [hval]
  have hnb : 0 < (if task.async_io then 2 else 1 : Nat) := by
    by_cases ha : task.async_io <;> simp [ha]
  simpa only [sizer_tail] using
    round_lift_per_buffer_assoc
      (min (sizer_head m (task.nonces * NONCE_SIZE) gpu_mem_needed gpu)
        ((free_memory - gpu_mem_needed) * 1000 / 1024))
      (if gpu then max 16 nonces_per_sector else nonces_per_sector)
      (if task.async_io then 2 else 1) hnb

/-- Closed witness for `sizer_alignment_invariant` at a double-buffered
task. -/
theorem sizer_alignment_invariant_witness :
    NONCE_SIZE * 1 ∣ 67108864 / 2 ∧ NONCE_SIZE * 1 ≤ 67108864 / 2 :=
  sizer_alignment_invariant task9 (2^33) 1 false 0 67108864 (by decide)

/-- C2: at a gpu task whose positive 1-byte memory budget is below
`gpu_mem_needed + nonces_per_sector * NONCE_SIZE`, the run terminates in
the insufficient-host-memory branch — which calls `process::exit(0)`, so
the recorded exit code is `0`, not the non-zero code the spec requires. -/
theorem gpu_insufficient_host_mem_exit_code :
    run task2 env2 = (RunOutcome.exited 0, noEffects) := by decide

/-- C3 counterexample: at a queried GPU memory need of 10 bytes, it is
not the case that setting `zcb` halves the reservation while leaving it
in full otherwise — the source does the opposite. -/
theorem zcb_halves_counterexample :
    ¬(gpu_mem_reserved true 10 = 10 / 2 ∧
      gpu_mem_reserved false 10 = 10) := by decide

/-- C3 (amended): the GPU memory reservation used for sizing is the full
queried value when `zcb` is set and half of it when `zcb` is not set —
the flag prevents the halving. -/
theorem zcb_prevents_halving (queried : Nat) :
    gpu_mem_reserved true queried = queried ∧
    gpu_mem_reserved false queried = queried / 2 := by
  constructor <;> rfl

/-- C4: with direct i/o and a positive `nonces_per_sector =
sector_size / SCOOP_SIZE`, a nonce count that is not a multiple of
`nonces_per_sector` is rounded down to the nearest multiple and the
rounding flag is set; a count already a multiple is unchanged; in
particular 100 nonces with 4096-byte sectors become 64. -/
theorem direct_io_alignment (sector_size N : Nat)
    (_hs : 0 < sector_size / SCOOP_SIZE) :
    (0 < N % (sector_size / SCOOP_SIZE) →
      align_nonces true sector_size N
        = (N / (sector_size / SCOOP_SIZE) * (sector_size / SCOOP_SIZE),
           true)) ∧
    (N % (sector_size / SCOOP_SIZE) = 0 →
      align_nonces true sector_size N = (N, false)) ∧
    align_nonces true 4096 100 = (64, true) := by
  refine ⟨fun h => ?_, fun h => ?_, by decide⟩
  · simp [align_nonces, h]
  · simp [align_nonces, h]

/-- Closed witness for `direct_io_alignment` at 4096-byte sectors and a
requested count of 100 nonces. -/
theorem direct_io_alignment_witness :
    0 < (4096 : Nat) / SCOOP_SIZE ∧
    align_nonces true 4096 100
      = (100 / (4096 / SCOOP_SIZE) * (4096 / SCOOP_SIZE), true) :=
  ⟨by decide, (direct_io_alignment 4096 100 (by decide)).1 (by decide)⟩

/-- C6 counterexample: a direct-i/o task asking for 30 nonces on
4096-byte sectors rounds down to 0 nonces, yet the run raises no
ConfigInvalid error — it proceeds, preallocating and initialising the
sidecar of a zero-nonce file. -/
theorem zero_aligned_nonces_counterexample :
    (run task6 env6).2.preallocated = true ∧
    (run task6 env6).1 = RunOutcome.proceed 0 true 16777216 0 := by
  constructor <;> decide

/-- C6 (amended): for every task with direct i/o whose nonce count
rounds down to zero after sector alignment, the run raises no
ConfigInvalid error: when the path exists, no output file exists,
benchmark is off and the memory sizer succeeds (its own error exits are
the only preemptions), the run proceeds with an effective nonce count of
zero, preallocating the zero-byte plot file and initialising the
sidecar. -/
theorem zero_aligned_nonces_still_proceed (task : PlotterTask)
    (env : RunEnv) (_hd : task.direct_io = true)
    (heff : effective_nonces task env = 0)
    (hpath : env.path_exists = true) (hfile : env.file_exists = false)
    (hbench : task.benchmark = false) (memv : Nat)
    (hok : calculate_mem_to_use (effective_task task env) env.free_memory
        (nonces_per_sector_of task.direct_io env.sector_size) task.gpus
        (gpu_mem_needed_of task env) = SizerResult.ok memv) :
    (run task env).2.preallocated = true ∧
    (run task env).2.sidecar_written = true ∧
    (run task env).1
      = RunOutcome.proceed 0 (rounded_to_sector task env) memv 0 := by
  have hrun : run task env
      = (RunOutcome.proceed 0 (rounded_to_sector task env) memv 0,
         ⟨true, true⟩) := by
    simp [run, hpath, hfile, hbench, hok, heff]
  rw [hrun]
  exact ⟨rfl, rfl, rfl⟩

/-- Closed witness for `zero_aligned_nonces_still_proceed` at the
30-nonce direct-i/o task, whose sizer succeeds with one 16 MiB unit. -/
theorem zero_aligned_nonces_still_proceed_witness :
    (run task6 env6).2.preallocated = true ∧
    (run task6 env6).2.sidecar_written = true ∧
    (run task6 env6).1 = RunOutcome.proceed 0 true 16777216 0 :=
  zero_aligned_nonces_still_proceed task6 env6 rfl (by decide) rfl rfl rfl
    16777216 (by decide)

/-- C7: provided the target path exists, the run terminates with the
insufficient-disk-space error exactly when the free disk space is below
the effective plot size, the output file does not already exist and
benchmark mode is off. -/
theorem insufficient_disk_iff (task : PlotterTask) (env : RunEnv)
    (hpath : env.path_exists = true) :
    (run task env).1 = RunOutcome.insufficientDisk ↔
      (env.free_disk_space < effective_nonces task env * NONCE_SIZE ∧
       env.file_exists = false ∧ task.benchmark = false) := by
  constructor
  · intro h
    by_cases hc : env.free_disk_space < effective_nonces task env * NONCE_SIZE ∧
        env.file_exists = false ∧ task.benchmark = false
    · exact hc
    · exfalso
      simp only [run, hpath, Bool.true_eq_false, if_false, if_neg hc] at h
      rcases hres : calculate_mem_to_use (effective_task task env)
          env.free_memory
          (nonces_per_sector_of task.direct_io env.sector_size) task.gpus
          (gpu_mem_needed_of task env) with _ | c | _ | memv <;>
        rw [hres] at h <;> simp at h
      by_cases hfe : env.file_exists <;> simp [hfe] at h
      · rcases hri : env.resume_info with _ | p <;> simp [hri] at h
  · intro h
    simp [run, hpath, h]

/-- Closed witness for `insufficient_disk_iff` with only 1000 bytes of
free disk. -/
theorem insufficient_disk_iff_witness :
    (run taskD envD).1 = RunOutcome.insufficientDisk ↔
      (envD.free_disk_space < effective_nonces taskD envD * NONCE_SIZE ∧
       envD.file_exists = false ∧ taskD.benchmark = false) :=
  insufficient_disk_iff taskD envD rfl

/-- C8: in benchmark mode with no pre-existing output file, the setup
phase neither preallocates the plot file nor writes the resume sidecar. -/
theorem benchmark_skips_setup_writes (task : PlotterTask) (env : RunEnv)
    (hb : task.benchmark = true) (hf : env.file_exists = false) :
    (run task env).2.preallocated = false ∧
    (run task env).2.sidecar_written = false := by
  have h2 : (run task env).2 = noEffects := by
    unfold run
    by_cases hp : env.path_exists = false
    · simp [hp]
    · by_cases hdisk : env.free_disk_space <
          effective_nonces task env * NONCE_SIZE ∧
          env.file_exists = false ∧ task.benchmark = false
      · simp [hp, hdisk]
      · simp only [if_neg hp, if_neg hdisk]
        rcases hres : calculate_mem_to_use (effective_task task env)
            env.free_memory
            (nonces_per_sector_of task.direct_io env.sector_size) task.gpus
            (gpu_mem_needed_of task env) with _ | c | _ | memv <;>
          simp [hf, hb]
  rw [h2]
  exact ⟨rfl, rfl⟩

/-- Closed witness for `benchmark_skips_setup_writes`. -/
theorem benchmark_skips_setup_writes_witness :
    (run task8 env8).2.preallocated = false ∧
    (run task8 env8).2.sidecar_written = false :=
  benchmark_skips_setup_writes task8 env8 rfl rfl

/-- C9: when the output file exists and the sizer succeeds, an unreadable
resume sidecar ends the run as already-completed with no on-disk side
effect (before any thread spawns, since only `proceed` spawns threads),
while a readable sidecar makes the run proceed from the stored nonce
count. -/
theorem existing_file_resume (task : PlotterTask) (env : RunEnv)
    (hpath : env.path_exists = true) (hex : env.file_exists = true)
    (memv : Nat)
    (hok : calculate_mem_to_use (effective_task task env) env.free_memory
        (nonces_per_sector_of task.direct_io env.sector_size) task.gpus
        (gpu_mem_needed_of task env) = SizerResult.ok memv) :
    (env.resume_info = none →
      run task env = (RunOutcome.alreadyCompleted, noEffects)) ∧
    ∀ p, env.resume_info = some p →
      run task env
        = (RunOutcome.proceed (effective_nonces task env)
            (rounded_to_sector task env) memv p, noEffects) := by
  constructor
  · intro hr
    simp [run, hpath, hex, hok, hr]
  · intro p hr
    simp [run, hpath, hex, hok, hr]

/-- Closed witness for `existing_file_resume`: the sidecar stores 5
completed nonces and the run resumes from there. -/
theorem existing_file_resume_witness :
    run task9 env9
      = (RunOutcome.proceed 256 false 67108864 5, noEffects) :=
  (existing_file_resume task9 env9 rfl rfl 67108864 (by decide)).2 5 rfl

/-- C10: `calculate_mem_to_use` is only well-defined when the reported
free memory is at least `gpu_mem_needed`: whenever it is smaller, any
call with a parseable memory string either hits the fatal-exit branch or
the `u64` underflow of `free_memory - gpu_mem_needed`, and no memory
size is produced. -/
theorem sizer_underflow_without_free_mem (task : PlotterTask)
    (free_memory nonces_per_sector : Nat) (gpu : Bool)
    (gpu_mem_needed m : Nat) (hm : task.mem = some m)
    (hlt : free_memory < gpu_mem_needed) :
    (¬(gpu = true ∧ 0 < m ∧
        m < gpu_mem_needed + nonces_per_sector * NONCE_SIZE) →
      calculate_mem_to_use task free_memory nonces_per_sector gpu
        gpu_mem_needed = SizerResult.underflow) ∧
    ∀ v, calculate_mem_to_use task free_memory nonces_per_sector gpu
        gpu_mem_needed ≠ SizerResult.ok v := by
  constructor
  · intro h1
    simp [calculate_mem_to_use, hm, h1, hlt]
  · intro v
    by_cases h1 : gpu = true ∧ 0 < m ∧
        m < gpu_mem_needed + nonces_per_sector * NONCE_SIZE
    · simp [calculate_mem_to_use, hm, h1]
    · simp [calculate_mem_to_use, hm, h1, hlt]

/-- Closed witness for `sizer_underflow_without_free_mem`: 10 bytes of
free memory against a 100-byte GPU reservation. -/
theorem sizer_underflow_witness :
    calculate_mem_to_use task10 10 1 true 100 = SizerResult.underflow :=
  (sizer_underflow_without_free_mem task10 10 1 true 100 0 rfl
    (by decide)).1 (by decide)

end Engraver
